import Mathlib

/-!
Shallow embedding of `src/check.py` (simple-check): an NNTP availability
checker.  The embedding models the response-line parser `ParseResponse`,
the socket wrappers `GetServerResponse` / `SendServerCommand`, the protocol
operations `Connect`, `Login`, `Check`, and the availability accumulators of
the `__main__` loop.

Modelling conventions:
* A Python string is a `String` (the program runs under Python-2 string
  semantics, where `socket.recv` yields a `str`).
* The socket is a `Conn` record: the list of lines the server will deliver
  (`pending`, one `recv` consumes one entry), the commands written so far
  (`sent`), and whether `close` has been called (`closed`).
* A Python exception that the code does not catch (`TypeError` from
  unpacking `None`, `ZeroDivisionError` from float division by zero) is an
  `Except.error`; `recv` on an exhausted `pending` list would block forever,
  modelled as the distinguished error `PyErr.blocked`.
* Python float counters hold only the exact small integers 0, 1, 2, … here,
  so they are modelled as `ℚ`; the single inexact operation, `round(x, 2)`,
  is modelled as exact rational rounding to two decimal places, which agrees
  with the source's float arithmetic at every value appearing below.
-/

/-- Uncaught Python exceptions (and blocking) that the embedded code can
exhibit. -/
inductive PyErr where
  | typeError : PyErr
  | zeroDivisionError : PyErr
  | blocked : PyErr
  deriving DecidableEq, Repr

/-- The tail of the regex `(\d+)(?: (.*))?\r\n` after the digits and the
space: greedy `(.*)` (any characters except newline) followed by the literal
`\r\n`.  Returns the matched text group, or `none` when the branch cannot
match.  Because `.` never matches `\n`, a successful match always ends at
the first `\r\n` of the input, and every character before it is not `\n`. -/
def textCrlf : List Char → Option (List Char)
  | [] => none
  | c :: rest =>
    if c = '\r' ∧ rest.head? = some '\n' then some []
    else if c = '\n' then none
    else (textCrlf rest).map (fun t => c :: t)

/-- The regex tail after the mandatory digit group: either a space and the
`textCrlf` branch, or the literal `\r\n` immediately (optional group
skipped), or no match.  `digits` is group 1, threaded through to the
result. -/
def parseRest (digits : List Char) : List Char → Option (List Char × Option (List Char))
  | [] => none
  | c :: s1 =>
    if c = ' ' then (textCrlf s1).map (fun t => (digits, some t))
    else if c = '\r' ∧ s1.head? = some '\n' then some (digits, none)
    else none

/-- Core of `ParseResponse` on the character list of the input: Python's
`re.match(r'(\d+)(?: (.*))?\r\n', data)`.  `re.match` anchors at the start
only.  `(\d+)` takes the maximal leading ASCII-digit run (shorter splits
always fail, since the following character would be a digit, matching
neither the space, nor `\r`); then either a space and the `textCrlf` tail,
or the literal `\r\n` directly. -/
def parseResponseCore (data : List Char) : Option (List Char × Option (List Char)) :=
  if data.takeWhile Char.isDigit = [] then none
  else
    parseRest (data.takeWhile Char.isDigit)
      (data.drop (data.takeWhile Char.isDigit).length)

/-- Observation used to state the no-CRLF case of the parser contract:
whether the consecutive pair `\r\n` occurs anywhere in the input. -/
def containsCrlf : List Char → Bool
  | [] => false
  | c :: rest => (decide (c = '\r' ∧ rest.head? = some '\n')) || containsCrlf rest

/-- `ParseResponse(data)` from `src/check.py`: parse one response line into
the status-code string and the optional trailing text; `None` (here:
`none`) when the regex does not match. -/
def ParseResponse (data : String) : Option (String × Option String) :=
  (parseResponseCore data.toList).map
    (fun r => (String.mk r.1, r.2.map String.mk))

example : ParseResponse "200 hello\r\n" = some ("200", some "hello") := by decide
example : ParseResponse "223\r\n" = some ("223", none) := by decide
example : ParseResponse "430 no such article\r\n" = some ("430", some "no such article") := by decide
example : ParseResponse "200 hello" = none := by decide
example : ParseResponse "hello\r\n" = none := by decide
example : ParseResponse "" = none := by decide
example : ParseResponse "200 \r\n" = some ("200", some "") := by decide
example : ParseResponse "12 34\r\n56\r\n" = some ("12", some "34") := by decide
example : ParseResponse "200 a\rb\r\n" = some ("200", some "a\rb") := by decide
example : ParseResponse "200 a\nb\r\n" = none := by decide
example : ParseResponse "007 zeros\r\n" = some ("007", some "zeros") := by decide

deriving instance DecidableEq for Except

/-- The socket object of the embedding.  `pending` is the sequence of lines
the server will deliver, in order (one `recv(1024)` consumes exactly one
line); `sent` is the sequence of commands written with `sendall`; `closed`
records whether `close()` has been called on the object. -/
structure Conn where
  pending : List String
  sent : List String
  closed : Bool
  deriving DecidableEq, Repr

/-- `s.recv(1024)`: deliver the next pending server line.  With nothing
pending a blocking socket would never return, modelled as `PyErr.blocked`. -/
def recv (s : Conn) : Except PyErr (String × Conn) :=
  match s.pending with
  | [] => .error .blocked
  | data :: rest => .ok (data, { s with pending := rest })

/-- `s.sendall(command)`: record the written command. -/
def sendall (s : Conn) (command : String) : Conn :=
  { s with sent := s.sent ++ [command] }

/-- `GetServerResponse(s)` from `src/check.py`: receive one line and run
`code, text = ParseResponse(data)`.  When `ParseResponse` returns `None`,
that tuple-unpacking of `None` raises an uncaught `TypeError`. -/
def GetServerResponse (s : Conn) : Except PyErr ((String × Option String) × Conn) := do
  let (data, s) ← recv s
  match ParseResponse data with
  | some r => .ok (r, s)
  | none => .error .typeError

/-- `SendServerCommand(s, command)` from `src/check.py`: write the command,
then read and parse the response. -/
def SendServerCommand (s : Conn) (command : String) :
    Except PyErr ((String × Option String) × Conn) :=
  GetServerResponse (sendall s command)

/-- `Connect(server, port, use_ssl)` from `src/check.py`, instrumented: the
`pending` argument models the lines the freshly connected server will send.
The result records Python's return value (`some` session or `None`)
TOGETHER with the state of the local socket object `s` at the moment
`Connect` returns — the source has no `s.close()` call on any path, so on
the `None` path the still-open socket is simply dropped. -/
def ConnectAux (server : String) (port : ℕ) (use_ssl : Bool) (pending : List String) :
    Except PyErr (Option Conn × Conn) := do
  let s : Conn := { pending := pending, sent := [], closed := false }
  let ((code, _), s) ← GetServerResponse s
  if code ≠ "200" then .ok (none, s) else .ok (some s, s)

/-- `Connect` as the caller sees it: just the Python return value. -/
def Connect (server : String) (port : ℕ) (use_ssl : Bool) (pending : List String) :
    Except PyErr (Option Conn) :=
  (ConnectAux server port use_ssl pending).map Prod.fst

/-- `Login(s, username, password)` from `src/check.py`: send
`AUTHINFO USER`, demand code `381`, send `AUTHINFO PASS`, demand code
`281`.  Returns Python's `None` (failure) or `True` alongside the final
socket state. -/
def Login (s : Conn) (username passwd : String) :
    Except PyErr (Option Bool × Conn) := do
  let ((code, _), s) ← SendServerCommand s ("AUTHINFO USER " ++ username ++ "\r\n")
  if code ≠ "381" then .ok (none, s)
  else do
    let ((code, _), s) ← SendServerCommand s ("AUTHINFO PASS " ++ passwd ++ "\r\n")
    if code ≠ "281" then .ok (none, s)
    else .ok (some true, s)

/-- `Check(s, messageId)` from `src/check.py`: send `STAT <messageId>`;
`True` exactly when the parsed status code is `"223"`, `False` on any other
parsed code. -/
def Check (s : Conn) (messageId : String) : Except PyErr (Bool × Conn) := do
  let ((code, _), s) ← SendServerCommand s ("STAT " ++ messageId ++ "\r\n")
  if code ≠ "223" then .ok (false, s) else .ok (true, s)

example :
    Check { pending := ["223 found\r\n"], sent := [], closed := false } "<a@b>" =
      .ok (true, { pending := [], sent := ["STAT <a@b>\r\n"], closed := false }) := by
  decide
example :
    Check { pending := ["430 no\r\n"], sent := [], closed := false } "<a@b>" =
      .ok (false, { pending := [], sent := ["STAT <a@b>\r\n"], closed := false }) := by
  decide
example :
    Check { pending := ["garbage"], sent := [], closed := false } "<a@b>" =
      .error .typeError := by
  decide
example :
    Connect "h" 119 false ["200 ready\r\n", "x"] =
      .ok (some { pending := ["x"], sent := [], closed := false }) := by
  decide
example :
    ConnectAux "h" 119 false ["500 go away\r\n"] =
      .ok (none, { pending := [], sent := [], closed := false }) := by
  decide
example :
    Login { pending := ["381 more\r\n", "281 ok\r\n"], sent := [], closed := false } "u" "p" =
      .ok (some true,
        { pending := [], sent := ["AUTHINFO USER u\r\n", "AUTHINFO PASS p\r\n"],
          closed := false }) := by
  decide
example :
    Login { pending := ["502 denied\r\n", "x"], sent := [], closed := false } "u" "p" =
      .ok (none,
        { pending := ["x"], sent := ["AUTHINFO USER u\r\n"], closed := false }) := by
  decide

/-- One scope's counters: `fileFound`/`fileMissing` (per inner file) or
`totalFound`/`totalMissing` (per NZB run) of `__main__`.  The Python
counters are floats holding exact small integers, modelled as `ℚ`. -/
structure Stats where
  found : ℚ
  missing : ℚ
  deriving DecidableEq, Repr

/-- The inner segment loop of `__main__` (lines 262–271): for each `Check`
result, increment the found counter of BOTH the per-file scope and the
per-run scope when the result is `True`, and both missing counters
otherwise. -/
def processSegments (results : List Bool) (fileSt totalSt : Stats) : Stats × Stats :=
  match results with
  | [] => (fileSt, totalSt)
  | r :: rest =>
    if r then
      processSegments rest { fileSt with found := fileSt.found + 1 }
        { totalSt with found := totalSt.found + 1 }
    else
      processSegments rest { fileSt with missing := fileSt.missing + 1 }
        { totalSt with missing := totalSt.missing + 1 }

/-- The stats of one per-file scope, processed from its segment results
starting at the zero-initialised counters of `__main__`. -/
def fileStats (results : List Bool) : Stats :=
  (processSegments results ⟨0, 0⟩ ⟨0, 0⟩).1

/-- `round(x, 2)` of `src/check.py` on the exact value: round `x` to two
decimal places.  (Python rounds the nearest double half-to-even; on the
non-tie values arising in this development the two notions coincide.) -/
def round2 (q : ℚ) : ℚ := (round (q * 100) : ℤ) / 100

/-- The percentage reported for one scope (`__main__` lines 274–277 and
282–285): `100` when the missing counter is `0`, else
`round((missing / found) * 100, 2)`.  When `found = 0` and `missing ≠ 0`,
Python's float division `missing / found` raises an uncaught
`ZeroDivisionError`, modelled as the corresponding error. -/
def percentAvailable (st : Stats) : Except PyErr ℚ :=
  if st.missing = 0 then .ok 100
  else if st.found = 0 then .error .zeroDivisionError
  else .ok (round2 (st.missing / st.found * 100))

example : percentAvailable ⟨10, 0⟩ = .ok 100 := by norm_num [percentAvailable]
example : percentAvailable ⟨9, 1⟩ = .ok (1111 / 100) := by
  norm_num [percentAvailable, round2, round_eq]
example : percentAvailable ⟨0, 1⟩ = .error .zeroDivisionError := by
  norm_num [percentAvailable]
example : percentAvailable ⟨1, 3⟩ = .ok 300 := by
  norm_num [percentAvailable, round2, round_eq]
example : percentAvailable ⟨0, 0⟩ = .ok 100 := by norm_num [percentAvailable]
example : fileStats [true, false, false, false] = ⟨1, 3⟩ := by
  norm_num [fileStats, processSegments]
example : percentAvailable ⟨2, 1⟩ = .ok 50 := by
  norm_num [percentAvailable, round2, round_eq]

/-! ## Helper lemmas -/

theorem takeWhile_append_drop_self (p : Char → Bool) (l : List Char) :
    l.takeWhile p ++ l.drop (l.takeWhile p).length = l := by
  induction l with
  | nil => rfl
  | cons a t ih =>
    by_cases h : p a
    · simpa [List.takeWhile_cons_of_pos h] using ih
    · simp [List.takeWhile_cons_of_neg h]

theorem takeWhile_digits_of_append (digits rest : List Char)
    (hd : ∀ c ∈ digits, c.isDigit)
    (hr : ∀ c t, rest = c :: t → c.isDigit = false) :
    (digits ++ rest).takeWhile Char.isDigit = digits := by
  induction digits with
  | nil =>
    cases hrest : rest with
    | nil => rfl
    | cons c t =>
      rw [List.nil_append]
      exact List.takeWhile_cons_of_neg (by simp [hr c t hrest])
  | cons a l ih =>
    have ha : Char.isDigit a := hd a (by simp)
    have ih' := ih (fun c hc => hd c (by simp [hc]))
    simp [List.takeWhile_cons_of_pos ha, ih']

theorem textCrlf_append (text : List Char) (h : '\n' ∉ text) :
    textCrlf (text ++ ['\r', '\n']) = some text := by
  induction text with
  | nil => decide
  | cons c t ih =>
    have hc : c ≠ '\n' := fun e => h (by simp [e])
    have h' : '\n' ∉ t := fun ht => h (by simp [ht])
    have hcond : ¬(c = '\r' ∧ (t ++ ['\r', '\n']).head? = some '\n') := by
      rintro ⟨-, hh⟩
      cases t with
      | nil => simp at hh
      | cons x xs =>
        simp at hh
        exact h' (by simp [hh])
    simp only [List.cons_append, textCrlf, List.append_eq, if_neg hcond,
      if_neg hc, ih h', Option.map_some']

theorem textCrlf_isSome_contains (s : List Char) (h : (textCrlf s).isSome) :
    containsCrlf s = true := by
  induction s with
  | nil => simp [textCrlf] at h
  | cons c rest ih =>
    simp only [textCrlf] at h
    by_cases h1 : c = '\r' ∧ rest.head? = some '\n'
    · simp [containsCrlf, h1]
    · rw [if_neg h1] at h
      by_cases h2 : c = '\n'
      · rw [if_pos h2] at h
        simp at h
      · rw [if_neg h2] at h
        have : (textCrlf rest).isSome := by
          cases hrest : textCrlf rest with
          | none => rw [hrest] at h; simp at h
          | some t' => simp
        simp [containsCrlf, ih this]

theorem containsCrlf_append_right (l r : List Char) (h : containsCrlf r = true) :
    containsCrlf (l ++ r) = true := by
  induction l with
  | nil => simpa
  | cons a t ih => simp [containsCrlf, ih]

theorem parseRest_isSome_contains (digits rest : List Char)
    (h : (parseRest digits rest).isSome) : containsCrlf rest = true := by
  cases rest with
  | nil => simp [parseRest] at h
  | cons c s1 =>
    simp only [parseRest] at h
    by_cases hsp : c = ' '
    · rw [if_pos hsp] at h
      have h1 : (textCrlf s1).isSome := by
        cases ht : textCrlf s1 with
        | none => rw [ht] at h; simp at h
        | some t' => simp
      simp [containsCrlf, textCrlf_isSome_contains s1 h1]
    · rw [if_neg hsp] at h
      by_cases hcr : c = '\r' ∧ s1.head? = some '\n'
      · simp [containsCrlf, hcr]
      · rw [if_neg hcr] at h
        simp at h

theorem parse_isSome_contains (data : List Char) (h : (parseResponseCore data).isSome) :
    containsCrlf data = true := by
  unfold parseResponseCore at h
  by_cases he : data.takeWhile Char.isDigit = []
  · rw [if_pos he] at h
    simp at h
  · rw [if_neg he] at h
    have hdata := takeWhile_append_drop_self Char.isDigit data
    have h2 := parseRest_isSome_contains _ _ h
    rw [← hdata]
    exact containsCrlf_append_right _ _ h2

theorem ParseResponse_mk (l : List Char) :
    ParseResponse ⟨l⟩ =
      (parseResponseCore l).map (fun r => (String.mk r.1, r.2.map String.mk)) := rfl

theorem parseResponseCore_sp (digits text : List Char) (hne : digits ≠ [])
    (hd : ∀ c ∈ digits, c.isDigit) (ht : '\n' ∉ text) :
    parseResponseCore (digits ++ ' ' :: (text ++ ['\r', '\n'])) =
      some (digits, some text) := by
  have hr : ∀ c t, (' ' :: (text ++ ['\r', '\n'])) = c :: t → c.isDigit = false := by
    intro c t e
    cases e
    decide
  have h1 := takeWhile_digits_of_append digits _ hd hr
  unfold parseResponseCore
  rw [h1, if_neg hne, List.drop_left]
  simp [parseRest, textCrlf_append text ht]

theorem parseResponseCore_nosp (digits : List Char) (hne : digits ≠ [])
    (hd : ∀ c ∈ digits, c.isDigit) :
    parseResponseCore (digits ++ ['\r', '\n']) = some (digits, none) := by
  have hr : ∀ c t, (['\r', '\n'] : List Char) = c :: t → c.isDigit = false := by
    intro c t e
    cases e
    decide
  have h1 := takeWhile_digits_of_append digits _ hd hr
  unfold parseResponseCore
  rw [h1, if_neg hne, List.drop_left]
  simp [parseRest]

theorem except_bind_ok {ε α β : Type} (a : α) (f : α → Except ε β) :
    (Except.ok a : Except ε α) >>= f = f a := rfl

theorem except_bind_error {ε α β : Type} (e : ε) (f : α → Except ε β) :
    (Except.error e : Except ε α) >>= f = Except.error e := rfl

theorem except_map_ok {ε α β : Type} (f : α → β) (a : α) :
    Except.map f (Except.ok a : Except ε α) = Except.ok (f a) := rfl

theorem except_map_error {ε α β : Type} (f : α → β) (e : ε) :
    Except.map f (Except.error e : Except ε α) = Except.error e := rfl

/-! ## Claim theorems -/

/-- C3: a line `digits SP text CRLF` (one or more ASCII digits, one space,
arbitrary line text — i.e. text without an embedded newline — then CRLF)
parses to the digit string and the text; a line `digits CRLF` parses to
the digit string with the text absent; any input in which the CRLF pair
never occurs, and any input whose first character is not a digit, yields
`none` — never a partial or garbage value. -/
theorem ParseResponse_grammar_spec :
    (∀ digits text : List Char, digits ≠ [] → (∀ c ∈ digits, c.isDigit) →
        '\n' ∉ text →
        ParseResponse ⟨digits ++ ' ' :: (text ++ ['\r', '\n'])⟩ =
          some (⟨digits⟩, some ⟨text⟩)) ∧
    (∀ digits : List Char, digits ≠ [] → (∀ c ∈ digits, c.isDigit) →
        ParseResponse ⟨digits ++ ['\r', '\n']⟩ = some (⟨digits⟩, none)) ∧
    (∀ data : String, containsCrlf data.toList = false → ParseResponse data = none) ∧
    (∀ (c : Char) (cs : List Char), ¬ c.isDigit → ParseResponse ⟨c :: cs⟩ = none) := by
  refine ⟨?_, ?_, ?_, ?_⟩
  · intro digits text hne hd ht
    rw [ParseResponse_mk, parseResponseCore_sp digits text hne hd ht]
    rfl
  · intro digits hne hd
    rw [ParseResponse_mk, parseResponseCore_nosp digits hne hd]
    rfl
  · intro data hc
    have hpr : ParseResponse data = (parseResponseCore data.toList).map
        (fun r => (String.mk r.1, r.2.map String.mk)) := rfl
    cases hp : parseResponseCore data.toList with
    | none => rw [hpr, hp]; rfl
    | some v =>
      have := parse_isSome_contains data.toList (by rw [hp]; rfl)
      rw [this] at hc
      cases hc
  · intro c cs hd
    rw [ParseResponse_mk]
    unfold parseResponseCore
    rw [if_pos (List.takeWhile_cons_of_neg hd)]
    rfl

/-- C1: for every session and message id, when the server's next line
parses to a status code, `Check` returns precisely the boolean
`code = "223"` — `True` for `223`, `False` for every other parsed code —
as an ordinary return value, not an error, together with the `STAT`
command having been written. -/
theorem Check_true_iff_223 (s : Conn) (messageId line : String)
    (rest : List String) (code : String) (text : Option String)
    (hp : s.pending = line :: rest)
    (hparse : ParseResponse line = some (code, text)) :
    Check s messageId =
      .ok (decide (code = "223"),
        { pending := rest,
          sent := s.sent ++ ["STAT " ++ messageId ++ "\r\n"],
          closed := s.closed }) := by
  obtain ⟨pend, sent, cl⟩ := s
  simp only at hp
  subst hp
  by_cases hc : code = "223"
  · simp [Check, SendServerCommand, GetServerResponse, sendall, recv, hparse, hc,
      except_bind_ok, except_bind_error]
  · simp [Check, SendServerCommand, GetServerResponse, sendall, recv, hparse, hc,
      except_bind_ok, except_bind_error]

/-- Witness for C1: with the server answering `430 no\r\n` (article
absent), `Check` returns `False` as a value. -/
theorem Check_true_iff_223_witness :
    Check { pending := ["430 no\r\n"], sent := [], closed := false } "<seg@ex>" =
      .ok (false,
        { pending := [], sent := ["STAT <seg@ex>\r\n"], closed := false }) := by
  have h := Check_true_iff_223
    { pending := ["430 no\r\n"], sent := [], closed := false }
    "<seg@ex>" "430 no\r\n" [] "430" (some "no") rfl (by decide)
  exact h

/-- C2 counterexample: with greeting `500 busy\r\n` (code ≠ 200), `Connect`
does return the failure value, but the socket object at the moment of
return still has `closed = false` — the connection is NOT closed before the
failure is returned, contradicting the claim; moreover on an unparseable
greeting `Connect` does not return a failure at all but crashes with a
`TypeError`. -/
theorem Connect_counterexample :
    ConnectAux "news.example.com" 119 false ["500 busy\r\n"] =
      .ok (none, { pending := [], sent := [], closed := false }) ∧
    Connect "news.example.com" 119 false ["WELCOME"] = .error .typeError := by
  decide

/-- C2 amended: `Connect` returns a usable session iff the first parsed
response code equals `"200"`; on any other parsed code it returns the
failure value `None` with the underlying connection left open (not
closed); on a parse failure it raises an uncaught `TypeError` instead of
returning a failure value. -/
theorem Connect_amended (server : String) (port : ℕ) (ssl : Bool)
    (line : String) (rest : List String) :
    (∀ code text, ParseResponse line = some (code, text) →
      ((Connect server port ssl (line :: rest) =
          .ok (some { pending := rest, sent := [], closed := false })) ↔
        code = "200") ∧
      (code ≠ "200" →
        ConnectAux server port ssl (line :: rest) =
          .ok (none, { pending := rest, sent := [], closed := false }))) ∧
    (ParseResponse line = none →
      Connect server port ssl (line :: rest) = .error .typeError) := by
  constructor
  · intro code text hparse
    constructor
    · constructor
      · intro h
        by_contra hc
        simp [Connect, ConnectAux, GetServerResponse, recv, hparse, hc,
          except_bind_ok, except_bind_error, except_map_ok, except_map_error] at h
      · intro hc
        simp [Connect, ConnectAux, GetServerResponse, recv, hparse, hc,
          except_bind_ok, except_bind_error, except_map_ok, except_map_error]
    · intro hc
      simp [ConnectAux, GetServerResponse, recv, hparse, hc,
        except_bind_ok, except_bind_error]
  · intro hparse
    simp [Connect, ConnectAux, GetServerResponse, recv, hparse,
      except_bind_ok, except_bind_error, except_map_ok, except_map_error]

/-- Witness for the amended C2 at three concrete greetings: code 200
(success), code 502 (failure value, socket left open), unparseable
(crash). -/
theorem Connect_amended_witness :
    Connect "h" 119 false ["200 ok\r\n"] =
      .ok (some { pending := [], sent := [], closed := false }) ∧
    ConnectAux "h" 119 false ["502 no\r\n"] =
      .ok (none, { pending := [], sent := [], closed := false }) ∧
    Connect "h" 119 false ["bad"] = .error .typeError := by
  refine ⟨?_, ?_, ?_⟩
  · exact ((Connect_amended "h" 119 false "200 ok\r\n" []).1 "200" (some "ok")
      (by decide)).1.mpr rfl
  · exact ((Connect_amended "h" 119 false "502 no\r\n" []).1 "502" (some "no")
      (by decide)).2 (by decide)
  · exact (Connect_amended "h" 119 false "bad" []).2 (by decide)

/-- Witness for C3 at concrete inputs: the line `223 ok\r\n`, the line
`381\r\n`, an input without CRLF, and an input with no leading digit. -/
theorem ParseResponse_grammar_spec_witness :
    ParseResponse "223 ok\r\n" = some ("223", some "ok") ∧
    ParseResponse "381\r\n" = some ("381", none) ∧
    ParseResponse "no crlf here" = none ∧
    ParseResponse "x223\r\n" = none := by
  obtain ⟨h1, h2, h3, h4⟩ := ParseResponse_grammar_spec
  refine ⟨?_, ?_, ?_, ?_⟩
  · have := h1 ['2', '2', '3'] ['o', 'k'] (by decide) (by decide) (by decide)
    exact this
  · have := h2 ['3', '8', '1'] (by decide) (by decide)
    exact this
  · exact h3 "no crlf here" (by decide)
  · have := h4 'x' ['2', '2', '3', '\r', '\n'] (by decide)
    exact this

/-- C4: for every session and credential pair, when both `AUTHINFO`
responses parse, `Login` returns `True` if and only if the `AUTHINFO USER`
response code is exactly `"381"` and the `AUTHINFO PASS` response code is
exactly `"281"`; and when the first code is not `"381"`, `Login` fails with
the failure value after having written ONLY the `AUTHINFO USER` command —
the `AUTHINFO PASS` command is never sent. -/
theorem Login_true_iff_381_281 (s : Conn) (u p line1 line2 : String)
    (rest : List String) (c1 : String) (t1 : Option String)
    (hp : s.pending = line1 :: line2 :: rest)
    (h1 : ParseResponse line1 = some (c1, t1)) :
    (c1 ≠ "381" →
      Login s u p = .ok (none,
        { pending := line2 :: rest,
          sent := s.sent ++ ["AUTHINFO USER " ++ u ++ "\r\n"],
          closed := s.closed })) ∧
    (∀ c2 t2, ParseResponse line2 = some (c2, t2) →
      (c1 = "381" →
        Login s u p = .ok
          ((if c2 = "281" then some true else none),
            { pending := rest,
              sent := s.sent ++ ["AUTHINFO USER " ++ u ++ "\r\n",
                "AUTHINFO PASS " ++ p ++ "\r\n"],
              closed := s.closed })) ∧
      ((Login s u p).map Prod.fst = .ok (some true) ↔
        (c1 = "381" ∧ c2 = "281"))) := by
  obtain ⟨pend, sent, cl⟩ := s
  simp only at hp
  subst hp
  refine ⟨?_, ?_⟩
  · intro hc1
    simp [Login, SendServerCommand, GetServerResponse, sendall, recv, h1, hc1,
      except_bind_ok, except_bind_error]
  · intro c2 t2 h2
    refine ⟨?_, ?_⟩
    · intro hc1
      by_cases hc2 : c2 = "281" <;>
        simp [Login, SendServerCommand, GetServerResponse, sendall, recv,
          h1, h2, hc1, hc2, except_bind_ok, except_bind_error]
    · by_cases hc1 : c1 = "381" <;> by_cases hc2 : c2 = "281" <;>
        simp [Login, SendServerCommand, GetServerResponse, sendall, recv,
          h1, h2, hc1, hc2, except_bind_ok, except_bind_error,
          except_map_ok, except_map_error]

/-- Witness for C4 at two concrete sessions: a successful 381/281 handshake,
and a first-step rejection (code 502) after which only `AUTHINFO USER` has
been written. -/
theorem Login_true_iff_381_281_witness :
    (Login { pending := ["381 more\r\n", "281 ok\r\n"], sent := [], closed := false }
        "u" "p").map Prod.fst = .ok (some true) ∧
    Login { pending := ["502 denied\r\n", "281 ok\r\n"], sent := [], closed := false }
        "u" "p" =
      .ok (none,
        { pending := ["281 ok\r\n"], sent := ["AUTHINFO USER u\r\n"], closed := false }) := by
  constructor
  · exact (((Login_true_iff_381_281
      { pending := ["381 more\r\n", "281 ok\r\n"], sent := [], closed := false }
      "u" "p" "381 more\r\n" "281 ok\r\n" [] "381" (some "more") rfl
      (by decide)).2 "281" (some "ok") (by decide)).2).mpr ⟨rfl, rfl⟩
  · exact (Login_true_iff_381_281
      { pending := ["502 denied\r\n", "281 ok\r\n"], sent := [], closed := false }
      "u" "p" "502 denied\r\n" "281 ok\r\n" [] "502" (some "denied") rfl
      (by decide)).1 (by decide)

/-- C8: `Login` contains no `close()` call: whenever it returns (in
particular on every failing call), the `closed` flag of the connection is
exactly what it was, and the only changes are the protocol writes and
reads — either the single `AUTHINFO USER` command with one response line
consumed, or both commands with two lines consumed.  The caller remains
responsible for closing. -/
theorem Login_leaves_connection (s : Conn) (u p : String) (r : Option Bool)
    (s' : Conn) (h : Login s u p = .ok (r, s')) :
    s'.closed = s.closed ∧
    ((s'.sent = s.sent ++ ["AUTHINFO USER " ++ u ++ "\r\n"] ∧
        s'.pending = s.pending.drop 1) ∨
      (s'.sent = s.sent ++ ["AUTHINFO USER " ++ u ++ "\r\n",
          "AUTHINFO PASS " ++ p ++ "\r\n"] ∧
        s'.pending = s.pending.drop 2)) := by
  obtain ⟨pend, sent, cl⟩ := s
  cases pend with
  | nil =>
    simp [Login, SendServerCommand, GetServerResponse, sendall, recv,
      except_bind_ok, except_bind_error] at h
  | cons l1 pend1 =>
    cases hp1 : ParseResponse l1 with
    | none =>
      simp [Login, SendServerCommand, GetServerResponse, sendall, recv, hp1,
        except_bind_ok, except_bind_error] at h
    | some r1 =>
      obtain ⟨c1, t1⟩ := r1
      by_cases hc1 : c1 = "381"
      · cases pend1 with
        | nil =>
          simp [Login, SendServerCommand, GetServerResponse, sendall, recv,
            hp1, hc1, except_bind_ok, except_bind_error] at h
        | cons l2 pend2 =>
          cases hp2 : ParseResponse l2 with
          | none =>
            simp [Login, SendServerCommand, GetServerResponse, sendall, recv,
              hp1, hp2, hc1, except_bind_ok, except_bind_error] at h
          | some r2 =>
            obtain ⟨c2, t2⟩ := r2
            by_cases hc2 : c2 = "281"
            · simp [Login, SendServerCommand, GetServerResponse, sendall,
                recv, hp1, hp2, hc1, hc2, except_bind_ok,
                except_bind_error] at h
              obtain ⟨-, h2⟩ := h
              subst h2
              simp
            · simp [Login, SendServerCommand, GetServerResponse, sendall,
                recv, hp1, hp2, hc1, hc2, except_bind_ok,
                except_bind_error] at h
              obtain ⟨-, h2⟩ := h
              subst h2
              simp
      · simp [Login, SendServerCommand, GetServerResponse, sendall, recv,
          hp1, hc1, except_bind_ok, except_bind_error] at h
        obtain ⟨-, h2⟩ := h
        subst h2
        simp

/-- Witness for C8 at a concrete failing login (first step answered 502):
the resulting connection is not closed and carries only the one extra
written command. -/
theorem Login_leaves_connection_witness :
    ({ pending := ["x"], sent := ["AUTHINFO USER u\r\n"], closed := false } : Conn).closed =
      ({ pending := ["502 no\r\n", "x"], sent := [], closed := false } : Conn).closed ∧
    ((({ pending := ["x"], sent := ["AUTHINFO USER u\r\n"], closed := false } : Conn).sent =
          ({ pending := ["502 no\r\n", "x"], sent := [], closed := false } : Conn).sent ++
            ["AUTHINFO USER " ++ "u" ++ "\r\n"] ∧
        ({ pending := ["x"], sent := ["AUTHINFO USER u\r\n"], closed := false } : Conn).pending =
          (({ pending := ["502 no\r\n", "x"], sent := [], closed := false } : Conn).pending).drop 1) ∨
      (({ pending := ["x"], sent := ["AUTHINFO USER u\r\n"], closed := false } : Conn).sent =
          ({ pending := ["502 no\r\n", "x"], sent := [], closed := false } : Conn).sent ++
            ["AUTHINFO USER " ++ "u" ++ "\r\n", "AUTHINFO PASS " ++ "p" ++ "\r\n"] ∧
        ({ pending := ["x"], sent := ["AUTHINFO USER u\r\n"], closed := false } : Conn).pending =
          (({ pending := ["502 no\r\n", "x"], sent := [], closed := false } : Conn).pending).drop 2)) :=
  Login_leaves_connection
    { pending := ["502 no\r\n", "x"], sent := [], closed := false } "u" "p" none
    { pending := ["x"], sent := ["AUTHINFO USER u\r\n"], closed := false }
    (by decide)

/-- C6 (documents the code bug): on a received line the parser does not
match, `ParseResponse` returns `none` exactly as its docstring promises,
but every enclosing operation — `Connect`, `Login` and `Check` — then
crashes with an uncaught `TypeError` (the statement
`code, text = ParseResponse(data)` in `GetServerResponse` unpacks `None`)
instead of treating it as "no usable response" and failing in its
designated way. -/
theorem malformed_response_crashes :
    ParseResponse "*** bad line" = none ∧
    GetServerResponse { pending := ["*** bad line"], sent := [], closed := false } =
      .error .typeError ∧
    Connect "news.example.com" 119 false ["*** bad line"] = .error .typeError ∧
    Login { pending := ["*** bad line"], sent := [], closed := false } "u" "p" =
      .error .typeError ∧
    Check { pending := ["*** bad line"], sent := [], closed := false } "<m@id>" =
      .error .typeError := by
  decide

theorem processSegments_sum (results : List Bool) (fileSt totalSt : Stats) :
    ((processSegments results fileSt totalSt).1.found +
        (processSegments results fileSt totalSt).1.missing =
      fileSt.found + fileSt.missing + (results.length : ℚ)) ∧
    ((processSegments results fileSt totalSt).2.found +
        (processSegments results fileSt totalSt).2.missing =
      totalSt.found + totalSt.missing + (results.length : ℚ)) := by
  induction results generalizing fileSt totalSt with
  | nil => simp [processSegments]
  | cons r rest ih =>
    cases r
    · have h := ih { fileSt with missing := fileSt.missing + 1 }
        { totalSt with missing := totalSt.missing + 1 }
      simp only [processSegments, Bool.false_eq_true, if_false, List.length_cons]
      constructor
      · rw [h.1]
        push_cast
        ring
      · rw [h.2]
        push_cast
        ring
    · have h := ih { fileSt with found := fileSt.found + 1 }
        { totalSt with found := totalSt.found + 1 }
      simp only [processSegments, eq_self_iff_true, if_true, List.length_cons]
      constructor
      · rw [h.1]
        push_cast
        ring
      · rw [h.2]
        push_cast
        ring

/-- C9: after any prefix (the first `k` results) of the segment sequence
has been processed, in BOTH the per-file and the per-run accumulator,
found + missing exceeds its initial sum by exactly the number of segments
processed so far; starting from the zero-initialised counters of
`__main__`, found + missing is exactly that number. -/
theorem found_add_missing_invariant (results : List Bool) (k : ℕ)
    (fileSt totalSt : Stats) :
    ((processSegments (results.take k) fileSt totalSt).1.found +
        (processSegments (results.take k) fileSt totalSt).1.missing =
      fileSt.found + fileSt.missing + ((results.take k).length : ℚ)) ∧
    ((processSegments (results.take k) fileSt totalSt).2.found +
        (processSegments (results.take k) fileSt totalSt).2.missing =
      totalSt.found + totalSt.missing + ((results.take k).length : ℚ)) :=
  processSegments_sum (results.take k) fileSt totalSt

/-- C5: for every per-file scope reached by processing a segment result
sequence: when the missing counter is 0 the reported percentage is exactly
100; otherwise (when a division is possible at all, i.e. found ≠ 0) it is
`(missing / found) * 100` rounded to 2 decimal places — in particular,
after 9 found and 1 missing segments the reported value is 11.11. -/
theorem percent_formula (l : List Bool) :
    ((fileStats l).missing = 0 → percentAvailable (fileStats l) = .ok 100) ∧
    ((fileStats l).missing ≠ 0 → (fileStats l).found ≠ 0 →
      percentAvailable (fileStats l) =
        .ok (round2 ((fileStats l).missing / (fileStats l).found * 100))) ∧
    percentAvailable (fileStats
        [true, true, true, true, true, true, true, true, true, false]) =
      .ok (1111 / 100) := by
  refine ⟨?_, ?_, ?_⟩
  · intro h
    simp [percentAvailable, h]
  · intro h1 h2
    simp [percentAvailable, h1, h2]
  · norm_num [fileStats, processSegments, percentAvailable, round2, round_eq]

/-- Witness for C5: both branches at concrete segment sequences — all
found (100), and one found one missing (the ratio branch). -/
theorem percent_formula_witness :
    percentAvailable (fileStats [true]) = .ok 100 ∧
    percentAvailable (fileStats [true, false]) =
      .ok (round2 ((fileStats [true, false]).missing /
        (fileStats [true, false]).found * 100)) := by
  constructor
  · exact (percent_formula [true]).1 rfl
  · exact (percent_formula [true, false]).2.1
      (by norm_num [fileStats, processSegments])
      (by norm_num [fileStats, processSegments])

/-- C7 (documents the code bug): a scope with found = 0 and missing = 1 is
reachable (a file whose only segment is missing); on it the percentage
computation `(missing / found) * 100` raises an uncaught
`ZeroDivisionError` rather than reporting an edge-case value such as
0%. -/
theorem zero_found_crashes :
    fileStats [false] = { found := 0, missing := 1 } ∧
    percentAvailable (fileStats [false]) = .error .zeroDivisionError := by
  constructor
  · norm_num [fileStats, processSegments]
  · norm_num [percentAvailable, fileStats, processSegments]

/-- C10: the reported "percent available" is not bounded above by 100:
after the reachable segment outcomes [found, missing, missing, missing]
both the per-file and the per-run scope hold found = 1, missing = 3, and
the reported value (3/1)·100 = 300 is strictly greater than 100. -/
theorem percent_not_bounded :
    fileStats [true, false, false, false] = { found := 1, missing := 3 } ∧
    percentAvailable (fileStats [true, false, false, false]) = .ok 300 ∧
    percentAvailable
        ((processSegments [true, false, false, false] ⟨0, 0⟩ ⟨0, 0⟩).2) =
      .ok 300 ∧
    (100 : ℚ) < 300 := by
  refine ⟨?_, ?_, ?_, by norm_num⟩
  · norm_num [fileStats, processSegments]
  · norm_num [percentAvailable, round2, round_eq, fileStats, processSegments]
  · norm_num [percentAvailable, round2, round_eq, processSegments]
